import Mathlib

/-!
# Verification of the CodeClarity utility-types runtime

Shallow embedding of the plugin/service runtime of the repository:

* `codeclarity_db/analysis.go` — the job-state record (`Analysis`, `Step`,
  `AnalysisStatus`);
* `boilerplates/error_handling.go` — `EcosystemError`, `ErrorHandler.HandleError`,
  `ErrorRecoveryStrategy.ShouldRetry` / `GetRetryDelay`;
* `boilerplates/plugin_base.go` — `updateAnalysisInTransaction`,
  `createCallbackWrapper`, `notifyCompletion`, `initializeDatabases`;
* the service base file (`ServiceBase`): `connectServiceDatabases`,
  `connectAMQP`, `startQueueListener`, `WaitForever`, `restart`,
  `monitorConnection`, `checkDatabaseHealth`.

Modelling conventions: Go `map[string]any` payloads are abstracted to finite
association lists with integer values; `time.Time` values that only flow into
`Format(time.RFC3339Nano)` are carried as the already-formatted strings;
`time.Duration` and `float64` arithmetic in the retry policy is modelled
exactly over `ℚ`; UUIDs are modelled as `Nat`.  Effectful code (transactions,
the AMQP loop, the lifecycle loop) is modelled as explicit state passing over
inputs describing the behaviour of the external world (ping outcomes, handler
outcomes, restart-attempt outcomes).
-/

namespace UtilityTypes

/-! ## Data model (`codeclarity_db/analysis.go`) -/

/-- `type AnalysisStatus string` with its six constants. -/
inductive AnalysisStatus
  | success
  | updating_db
  | ongoing
  | failure
  | completed
  | started
  deriving DecidableEq, Repr

/-- Abstraction of the Go `map[string]any` payloads (step results, configs):
a finite association list with integer values, which is all the claims need. -/
abbrev Payload := List (String × Int)

/-- `type Step struct` of `analysis.go`.  `Started_on`/`Ended_on` hold the
RFC3339Nano-formatted strings, as in the Go struct. -/
structure Step where
  Name : String
  Version : String
  Config : Payload
  Status : AnalysisStatus
  Result : Payload
  Started_on : String
  Ended_on : String
  deriving DecidableEq, Repr

/-- `type Analysis struct` of `analysis.go` (the JobStateRecord).
`Stage` is a Go `int`, so it is modelled as `Int`. -/
structure Analysis where
  Id : Nat
  AnalyzerId : Nat
  OrganizationId : Nat
  ProjectId : Option Nat
  Config : Payload
  Stage : Int
  Steps : List (List Step)
  Status : AnalysisStatus
  Commit : String
  Branch : String
  deriving DecidableEq, Repr

/-! ## Error classification (`boilerplates/error_handling.go`)

`ErrorSeverity` and `ErrorCategory` are Go string types, so they are modelled
as `String` with the named constants of the source. -/

abbrev ErrorSeverity := String

def ErrorSeverityLow : ErrorSeverity := "low"
def ErrorSeverityMedium : ErrorSeverity := "medium"
def ErrorSeverityHigh : ErrorSeverity := "high"
def ErrorSeverityCritical : ErrorSeverity := "critical"

abbrev ErrorCategory := String

def ErrorCategoryDatabase : ErrorCategory := "database"
def ErrorCategoryNetwork : ErrorCategory := "network"
def ErrorCategoryValidation : ErrorCategory := "validation"
def ErrorCategoryProcessing : ErrorCategory := "processing"
def ErrorCategoryConfiguration : ErrorCategory := "configuration"
def ErrorCategoryExternal : ErrorCategory := "external"
def ErrorCategoryUnknown : ErrorCategory := "unknown"

/-- `type EcosystemError struct`.  The `Cause error` field is abstracted to the
cause's message string; `Timestamp` to a `Nat` tick; `Metadata` to a string
association list. -/
structure EcosystemError where
  Message : String
  Cause : Option String
  Timestamp : Nat
  Ecosystem : String
  Plugin : String
  Stage : String
  AnalysisID : String
  Severity : ErrorSeverity
  Category : ErrorCategory
  Recoverable : Bool
  StackTrace : String
  Metadata : List (String × String)
  deriving DecidableEq, Repr

/-- `func (e *EcosystemError) IsRecoverable() bool`. -/
def EcosystemError.IsRecoverable (e : EcosystemError) : Bool :=
  e.Recoverable

/-- `func (e *EcosystemError) IsCritical() bool`. -/
def EcosystemError.IsCritical (e : EcosystemError) : Bool :=
  e.Severity == ErrorSeverityCritical

/-- `func (e *EcosystemError) Error() string`. -/
def EcosystemError.errString (e : EcosystemError) : String :=
  match e.Cause with
  | some c => "[" ++ e.Ecosystem ++ "/" ++ e.Plugin ++ "] " ++ e.Message ++ ": " ++ c
  | none => "[" ++ e.Ecosystem ++ "/" ++ e.Plugin ++ "] " ++ e.Message

/-- `func NewErrorBuilder(message string)`: fields start at their Go zero
values, `Timestamp` at the current clock tick `now`. -/
def NewErrorBuilder (message : String) (now : Nat) : EcosystemError :=
  { Message := message
    Cause := none
    Timestamp := now
    Ecosystem := ""
    Plugin := ""
    Stage := ""
    AnalysisID := ""
    Severity := ""
    Category := ""
    Recoverable := false
    StackTrace := ""
    Metadata := [] }

/-- Builder method `WithCause`. -/
def EcosystemError.WithCause (e : EcosystemError) (cause : Option String) : EcosystemError :=
  { e with Cause := cause }

/-- Builder method `WithEcosystem`. -/
def EcosystemError.WithEcosystem (e : EcosystemError) (ecosystem : String) : EcosystemError :=
  { e with Ecosystem := ecosystem }

/-- Builder method `WithPlugin`. -/
def EcosystemError.WithPlugin (e : EcosystemError) (plugin : String) : EcosystemError :=
  { e with Plugin := plugin }

/-- Builder method `WithStage`. -/
def EcosystemError.WithStage (e : EcosystemError) (stage : String) : EcosystemError :=
  { e with Stage := stage }

/-- Builder method `WithSeverity`. -/
def EcosystemError.WithSeverity (e : EcosystemError) (severity : ErrorSeverity) : EcosystemError :=
  { e with Severity := severity }

/-- Builder method `WithCategory`. -/
def EcosystemError.WithCategory (e : EcosystemError) (category : ErrorCategory) : EcosystemError :=
  { e with Category := category }

/-- Builder method `WithRecoverable`. -/
def EcosystemError.WithRecoverable (e : EcosystemError) (recoverable : Bool) : EcosystemError :=
  { e with Recoverable := recoverable }

/-- `func NewProcessingError(message, cause, ecosystem, plugin, stage)`:
the builder chain of the source, ending in category "processing", severity
"medium", recoverable. -/
def NewProcessingError (message : String) (cause : Option String)
    (ecosystem plugin stage : String) (now : Nat) : EcosystemError :=
  (((((((NewErrorBuilder message now).WithCause cause).WithEcosystem
    ecosystem).WithPlugin plugin).WithStage stage).WithCategory
    ErrorCategoryProcessing).WithSeverity ErrorSeverityMedium).WithRecoverable true

/-- `type ErrorHandler struct`. -/
structure ErrorHandler where
  pluginName : String
  ecosystem : String
  deriving DecidableEq, Repr

/-- A Go `error` value entering `HandleError`: either already an
`*EcosystemError`, or a raw error carrying its message. -/
inductive GoError
  | eco (e : EcosystemError)
  | raw (msg : String)
  deriving DecidableEq, Repr

/-- `err.Error()` of a `GoError`. -/
def GoError.errorMessage : GoError → String
  | .eco e => e.errString
  | .raw m => m

/-- `func (eh *ErrorHandler) HandleError(err error, stage string)`:
`nil` input gives `nil`; an `EcosystemError` gets each empty context field
filled from the handler's context; any other error is wrapped by
`NewProcessingError(err.Error(), err, ...)`. -/
def ErrorHandler.HandleError (eh : ErrorHandler) (err : Option GoError)
    (stage : String) (now : Nat) : Option EcosystemError :=
  match err with
  | none => none
  | some (.eco e) =>
      some { e with
        Ecosystem := if e.Ecosystem = "" then eh.ecosystem else e.Ecosystem
        Plugin := if e.Plugin = "" then eh.pluginName else e.Plugin
        Stage := if e.Stage = "" then stage else e.Stage }
  | some (.raw m) =>
      some (NewProcessingError (GoError.raw m).errorMessage
        (some (GoError.raw m).errorMessage) eh.ecosystem eh.pluginName stage now)

/-! ## Retry policy (`ErrorRecoveryStrategy`)

`RetryDelay` is a Go `time.Duration` (nanoseconds) and `BackoffFactor` a
`float64`; the arithmetic of `GetRetryDelay` is modelled exactly over `ℚ`
(the truncation of the final `time.Duration` conversion and float rounding
are abstracted away). -/

/-- `type ErrorRecoveryStrategy struct`. -/
structure ErrorRecoveryStrategy where
  MaxRetries : Int
  RetryDelay : ℚ
  BackoffFactor : ℚ
  RecoverableOnly : Bool
  deriving DecidableEq, Repr

/-- `func DefaultRecoveryStrategy()`: 3 retries, 1 second (`10^9` ns) base
delay, backoff factor 2, recoverable-only. -/
def DefaultRecoveryStrategy : ErrorRecoveryStrategy :=
  { MaxRetries := 3
    RetryDelay := 1000000000
    BackoffFactor := 2
    RecoverableOnly := true }

/-- `func (strategy ErrorRecoveryStrategy) ShouldRetry(err, attemptCount)`:
the three guards of the source, in order. -/
def ErrorRecoveryStrategy.ShouldRetry (strategy : ErrorRecoveryStrategy)
    (err : EcosystemError) (attemptCount : Int) : Bool :=
  if strategy.MaxRetries ≤ attemptCount then false
  else if strategy.RecoverableOnly && !err.IsRecoverable then false
  else if err.Category == ErrorCategoryConfiguration
      && err.Severity == ErrorSeverityCritical then false
  else true

/-- The `multiplier` loop of `GetRetryDelay`:
`multiplier := 1.0; for i := 0; i < n; i++ { multiplier *= factor }`. -/
def backoffMultiplier (factor : ℚ) : Nat → ℚ
  | 0 => 1
  | n + 1 => backoffMultiplier factor n * factor

/-- `func (strategy ErrorRecoveryStrategy) GetRetryDelay(attemptCount)`. -/
def ErrorRecoveryStrategy.GetRetryDelay (strategy : ErrorRecoveryStrategy)
    (attemptCount : Int) : ℚ :=
  if attemptCount ≤ 0 then strategy.RetryDelay
  else strategy.RetryDelay * backoffMultiplier strategy.BackoffFactor attemptCount.toNat

/-! ## Transactional step update (`boilerplates/plugin_base.go`)

`updateAnalysisInTransaction` reloads the persisted `Analysis` record inside
the transaction, scans the steps of the current stage for the first one whose
name equals the plugin's name, sets its status/result/timestamps in place and
writes the whole record back; if no step matches, the closure returns an
error, the transaction is rolled back and nothing is written.  It is modelled
as a pure function of the persisted record `db` (the result of the reload).
`start`/`end_` are the `Format(time.RFC3339Nano)` strings of the two
`time.Time` arguments. -/

/-- The four in-place assignments of the match branch of the step loop:
status, result and the two formatted timestamps. -/
def setStepFields (step : Step) (result : Payload) (status : AnalysisStatus)
    (start end_ : String) : Step :=
  { step with
    Status := status
    Result := result
    Started_on := start
    Ended_on := end_ }

/-- The `for stepId, step := range analysisDoc.Steps[analysisDoc.Stage]` loop:
update the first step whose `Name` matches (the loop `break`s after the first
hit); `none` models `stepFound == false`. -/
def updateStepInStage (name : String) (result : Payload) (status : AnalysisStatus)
    (start end_ : String) : List Step → Option (List Step)
  | [] => none
  | step :: rest =>
      if step.Name = name then
        some (setStepFields step result status start end_ :: rest)
      else
        match updateStepInStage name result status start end_ rest with
        | some rest2 => some (step :: rest2)
        | none => none

/-- `func (pb *PluginBase) updateAnalysisInTransaction(...)`.
`db` is the persisted record as reloaded inside the transaction.  Go panics
on an out-of-range `Steps[Stage]` index; the theorems restrict to in-range
stages, where `List.getD` coincides with the Go indexing. -/
def updateAnalysisInTransaction (db : Analysis) (pluginName : String)
    (result : Payload) (status : AnalysisStatus) (start end_ : String) :
    Except String Analysis :=
  match updateStepInStage pluginName result status start end_
      (db.Steps.getD db.Stage.toNat []) with
  | some stage2 => .ok { db with Steps := db.Steps.set db.Stage.toNat stage2 }
  | none =>
      .error ("transaction failed: step " ++ pluginName ++ " not found in stage "
        ++ toString db.Stage)

/-- The persisted record after the call: the updated record when the
transaction commits, the unchanged record when it is rolled back. -/
def persistedAfterUpdate (db : Analysis) (pluginName : String) (result : Payload)
    (status : AnalysisStatus) (start end_ : String) : Analysis :=
  match updateAnalysisInTransaction db pluginName result status start end_ with
  | .ok doc => doc
  | .error _ => db

/-! ## Consumption loop (`startQueueListener` of the service base)

For each delivery the inner closure invokes the handler behind a
`defer`/`recover` boundary: a panic is recovered, the delivery is
`Nack(false, true)`-ed (requeue) and the closure returns, so the
`for d := range msgs` loop continues with the next delivery; a normal return
reaches `d.Ack(false)`. -/

/-- Outcome of one handler invocation. -/
inductive HandlerOutcome
  | normal
  | panics
  deriving DecidableEq, Repr

/-- Acknowledgment issued for one delivery. -/
inductive AckOutcome
  | ack
  | nackRequeue
  deriving DecidableEq, Repr

/-- The body of the per-delivery closure: recover a panic into a
nack-with-requeue, ack a normal return. -/
def processDelivery : HandlerOutcome → AckOutcome
  | .normal => .ack
  | .panics => .nackRequeue

/-- The `for d := range msgs` loop over a finite burst of deliveries, as the
sequence of acknowledgments it issues (one per delivery, in order). -/
def consumeLoop : List HandlerOutcome → List AckOutcome
  | [] => []
  | d :: rest => processDelivery d :: consumeLoop rest

/-! ## Plugin message pipeline (`createCallbackWrapper`, `notifyCompletion`) -/

/-- `type DispatcherPluginMessage struct` of the repository's `amqp` package
(`Data any`, `AnalysisId uuid.UUID`, `OrganizationId uuid.UUID`): the inbound
dispatch message.  `Data` is abstracted like the other `any` payloads; UUIDs
are `Nat` as elsewhere. -/
structure DispatcherPluginMessage where
  Data : Payload
  AnalysisId : Nat
  OrganizationId : Nat
  deriving DecidableEq, Repr

/-- `type PluginDispatcherMessage struct` of the `amqp` package
(`AnalysisId uuid.UUID`, `Plugin string`): the completion notification built
by `notifyCompletion`. -/
structure PluginDispatcherMessage where
  AnalysisId : Nat
  Plugin : String
  deriving DecidableEq, Repr

/-- `plugin_db.Plugin` as far as the pipeline reads it (its `Name`). -/
structure PluginConfig where
  Name : String
  Version : String
  deriving DecidableEq, Repr

/-- The external inputs of one callback invocation: the unmarshal outcome,
the analysis-document fetch outcome, and the outcome of the plugin's
`StartAnalysis` handler. -/
structure CallbackEnv where
  unmarshal : Option DispatcherPluginMessage
  fetchOk : Bool
  handlerResult : Except String (Payload × AnalysisStatus)
  deriving Repr

/-- The observable effects of one callback invocation: the step-update
requests issued (result payload, status, start, end) and the completion
message published, if any, as (queue name, message). -/
structure CallbackEffects where
  updates : List (Payload × AnalysisStatus × String × String)
  published : Option (String × PluginDispatcherMessage)
  deriving DecidableEq, Repr

/-- `createCallbackWrapper`'s returned closure, as a function of the persisted
record `db` and the external outcomes `env`, returning the effects and the
persisted record afterwards.  The error of the failure-path update is logged
and discarded; `notifyCompletion` publishes to `plugins_dispatcher` only after
a successful update on the success path. -/
def runCallbackWrapper (config : PluginConfig) (db : Analysis) (env : CallbackEnv)
    (start end_ : String) : CallbackEffects × Analysis :=
  match env.unmarshal with
  | none => ({ updates := [], published := none }, db)
  | some msg =>
      if !env.fetchOk then ({ updates := [], published := none }, db)
      else
        match env.handlerResult with
        | .error _ =>
            ({ updates := [([], AnalysisStatus.failure, start, end_)]
               published := none },
             persistedAfterUpdate db config.Name [] AnalysisStatus.failure start end_)
        | .ok (result, status) =>
            match updateAnalysisInTransaction db config.Name result status start end_ with
            | .error _ =>
                ({ updates := [(result, status, start, end_)], published := none }, db)
            | .ok doc =>
                ({ updates := [(result, status, start, end_)]
                   published := some ("plugins_dispatcher",
                     { AnalysisId := msg.AnalysisId, Plugin := config.Name }) },
                 doc)

/-! ## Connection establishment (`CreateServiceBase` of the service base,
`initializeDatabases` of `plugin_base.go`)

`sql.OpenDB` opens a Go connection pool lazily, without contacting the store;
only an explicit `Ping` probes liveness.  The environment describes which
probes would succeed: `resultsPingOk` etc. say whether a `Ping` against that
store succeeds, `amqpDialOk` whether `amqp.Dial` succeeds, `configOk` whether
`CreateConfigService`'s environment validation succeeds. -/

/-- Reachability of the external world at startup. -/
structure StoreEnv where
  configOk : Bool
  resultsPingOk : Bool
  knowledgePingOk : Bool
  pluginsPingOk : Bool
  configStorePingOk : Bool
  amqpDialOk : Bool
  deriving DecidableEq, Repr

/-- `func connectServiceDatabases(configSvc)`: opens the four pools lazily
and pings only the CodeClarity (results) store —
`if err := codeClaritySqlDB.Ping(); err != nil { return nil, ... }` is the
single probe in the function; the Knowledge, Plugins and Config stores are
wrapped in `bun.NewDB` without any ping. -/
def connectServiceDatabases (env : StoreEnv) : Except String Unit :=
  if env.resultsPingOk then .ok ()
  else .error "codeclarity database ping failed"

/-- `func connectAMQP(configSvc)`: a single `amqp.Dial`. -/
def connectAMQP (env : StoreEnv) : Except String Unit :=
  if env.amqpDialOk then .ok ()
  else .error "failed to connect to RabbitMQ"

/-- `func CreateServiceBase()`: config service, then databases, then the one
broker connection, sequentially and fail-fast. -/
def CreateServiceBase (env : StoreEnv) : Except String Unit :=
  if !env.configOk then .error "config service init failed"
  else
    match connectServiceDatabases env with
    | .error e => .error ("database connection failed: " ++ e)
    | .ok _ =>
        match connectAMQP env with
        | .error e => .error ("AMQP connection failed: " ++ e)
        | .ok _ => .ok ()

/-- Whether `CreateServiceBase` returns without error. -/
def startupSucceeds (env : StoreEnv) : Bool :=
  match CreateServiceBase env with
  | .ok _ => true
  | .error _ => false

/-- The claim's reading of §4.1 for the service path: whenever startup
succeeds, every required store responded to an initial liveness probe. -/
def startupProbesEveryStore : Prop :=
  ∀ env : StoreEnv, startupSucceeds env = true →
    env.knowledgePingOk = true ∧ env.pluginsPingOk = true
      ∧ env.configStorePingOk = true

/-- `func createDatabaseConnection(dsn)` of `plugin_base.go`: open lazily,
then `PingContext` with a 5-second timeout, closing the pool on failure. -/
def createDatabaseConnection (pingOk : Bool) : Except String Unit :=
  if pingOk then .ok () else .error "database ping failed"

/-- `func initializeDatabases(configSvc)` of `plugin_base.go`: the results,
knowledge and plugins stores are each opened and pinged, sequentially and
fail-fast. -/
def initializeDatabases (env : StoreEnv) : Except String Unit :=
  match createDatabaseConnection env.resultsPingOk with
  | .error e => .error ("failed to connect to codeclarity db: " ++ e)
  | .ok _ =>
      match createDatabaseConnection env.knowledgePingOk with
      | .error e => .error ("failed to connect to knowledge db: " ++ e)
      | .ok _ =>
          match createDatabaseConnection env.pluginsPingOk with
          | .error e => .error ("failed to connect to plugins db: " ++ e)
          | .ok _ => .ok ()

/-- Whether the plugin path's `initializeDatabases` returns without error. -/
def pluginInitSucceeds (env : StoreEnv) : Bool :=
  match initializeDatabases env with
  | .ok _ => true
  | .error _ => false

/-! ## Health monitor (`monitorConnection`, `checkDatabaseHealth`)

`checkDatabaseHealth` pings each non-nil store in a fixed order, racing each
ping against `time.After(5 * time.Second)`; the first error or timeout is
returned.  `monitorConnection` loops over a 30-second ticker and the broker's
`NotifyClose` channel; the first database failure or abnormal broker close
sends `true` on the single-delivery (buffered, capacity 1) channel and
returns.  The monitor is modelled as a fold over the finite sequence of
events it observes. -/

/-- Behaviour of one store under one ping: how long the ping takes
(time-units) and whether it returns an error. -/
structure StorePing where
  duration : Nat
  fails : Bool
  deriving DecidableEq, Repr

/-- The 5-time-unit individual ping timeout of `checkDatabaseHealth`. -/
def healthCheckTimeout : Nat := 5

/-- One store's contribution: `none` when healthy, otherwise the error
message.  A ping that has not completed when `time.After` fires is a
timeout; otherwise its error, if any, is reported.  (The race at exactly the
timeout instant is resolved in favour of the completed ping.) -/
def pingFailure (name : String) (p : StorePing) : Option String :=
  if healthCheckTimeout < p.duration then some (name ++ " DB ping timeout")
  else if p.fails then some (name ++ " DB ping failed")
  else none

/-- `if sb.DB.X != nil { ... }`: a nil store handle is skipped. -/
def checkStore (name : String) : Option StorePing → Option String
  | none => none
  | some p => pingFailure name p

/-- The four configured stores as seen by one tick's health check. -/
structure HealthEnv where
  codeclarity : Option StorePing
  knowledge : Option StorePing
  plugins : Option StorePing
  config : Option StorePing
  deriving DecidableEq, Repr

/-- `func (sb *ServiceBase) checkDatabaseHealth()`: CodeClarity, Knowledge,
Plugins, Config in order, returning the first failure. -/
def checkDatabaseHealth (env : HealthEnv) : Option String :=
  match checkStore "CodeClarity" env.codeclarity with
  | some e => some e
  | none =>
      match checkStore "Knowledge" env.knowledge with
      | some e => some e
      | none =>
          match checkStore "Plugins" env.plugins with
          | some e => some e
          | none => checkStore "Config" env.config

/-- `none` exactly when this store is either absent or pings back in time
without error. -/
def storeHealthy : Option StorePing → Bool
  | none => true
  | some p => decide (p.duration ≤ healthCheckTimeout) && !p.fails

/-- One event observed by `monitorConnection`'s `select`: a ticker tick
(carrying the store behaviour at that instant) or a `NotifyClose`
notification (`abnormal` models `err != nil`). -/
inductive MonitorEvent
  | tick (env : HealthEnv)
  | brokerClosed (abnormal : Bool)
  deriving DecidableEq, Repr

/-- Does this event make the monitor signal failure? -/
def eventSignalsFailure : MonitorEvent → Bool
  | .tick env => (checkDatabaseHealth env).isSome
  | .brokerClosed abnormal => abnormal

/-- A tick on which every configured store passes its health check (the only
kind of event the monitor survives). -/
def passingTick : MonitorEvent → Bool
  | .tick env => (checkDatabaseHealth env).isNone
  | .brokerClosed _ => false

/-- `func (sb *ServiceBase) monitorConnection(closeChan)` over a finite event
trace: returns the values sent on `closeChan` and the events left unobserved
because the monitor already returned.  A failing tick or an abnormal broker
close sends `true` once and returns; a graceful broker close returns without
sending (the deferred `close(closeChan)` is not a send). -/
def monitorRun : List MonitorEvent → List Bool × List MonitorEvent
  | [] => ([], [])
  | .brokerClosed abnormal :: rest =>
      (if abnormal then [true] else [], rest)
  | .tick env :: rest =>
      match checkDatabaseHealth env with
      | some _ => ([true], rest)
      | none => monitorRun rest

/-! ## Reconnect loop (`WaitForever`, `restart`)

On a connection-lost notification `WaitForever` closes everything, sleeps 10
seconds, and calls `restart`; a failed `restart` sleeps 30 further seconds and
re-enters the loop (the dead connection makes the next `monitorConnection`
fire immediately, so the branch repeats), indefinitely.  `restart` rebuilds
the config service, databases and broker connection and then calls
`StartListening`, which starts one listener per entry of the preserved
`sb.queues` slice. -/

/-- `type QueueConfig struct` (handler omitted: it is opaque here). -/
structure ServiceQueueConfig where
  Name : String
  Durable : Bool
  deriving DecidableEq, Repr

/-- Outcome of the four phases of one `restart` attempt. -/
structure RestartEnv where
  configOk : Bool
  dbOk : Bool
  amqpOk : Bool
  listenersOk : Bool
  deriving DecidableEq, Repr

/-- `func (sb *ServiceBase) restart()`: config service, databases, broker,
then `StartListening` over the registered queues, fail-fast; on success every
registered queue has a listener again (`StartListening` iterates `sb.queues`,
which `restart` never clears). -/
def restart (env : RestartEnv) (queues : List ServiceQueueConfig) :
    Except String (List String) :=
  if !env.configOk then .error "config service restart failed"
  else if !env.dbOk then .error "database restart failed"
  else if !env.amqpOk then .error "AMQP restart failed"
  else if !env.listenersOk then .error "queue listener restart failed"
  else .ok (queues.map ServiceQueueConfig.Name)

/-- Observable actions of the reconnecting branch of `WaitForever`. -/
inductive LAction
  | closeAll
  | sleep (seconds : Nat)
  | attemptRestart
  deriving DecidableEq, Repr

/-- The reconnecting branch of `WaitForever` over a finite script of
restart-attempt outcomes: each pass closes all connections, sleeps the fixed
10-second cool-down and attempts `restart`; a failure sleeps 30 more seconds
and loops.  The result is the action trace plus, once an attempt succeeds,
the queues listening again; `none` means the script ran out with the loop
still retrying (the loop itself never gives up). -/
def reconnectLoop (queues : List ServiceQueueConfig) :
    List RestartEnv → List LAction × Option (List String)
  | [] => ([], none)
  | env :: rest =>
      match restart env queues with
      | .ok names => ([.closeAll, .sleep 10, .attemptRestart], some names)
      | .error _ =>
          let r := reconnectLoop queues rest
          (LAction.closeAll :: LAction.sleep 10 :: LAction.attemptRestart
            :: LAction.sleep 30 :: r.1, r.2)

/-! ## Theorems -/

/-- C4: for every structured error and attempt count, `ShouldRetry` returns
true exactly when the attempt count is below `MaxRetries`, the error is not
excluded by a recoverable-only policy, and the error is not a critical
configuration error — so it is false in each of the three listed cases and
true in every other case. -/
theorem shouldRetry_characterisation (strategy : ErrorRecoveryStrategy)
    (err : EcosystemError) (n : Int) :
    strategy.ShouldRetry err n = true ↔
      ¬(strategy.MaxRetries ≤ n)
        ∧ ¬(strategy.RecoverableOnly = true ∧ err.Recoverable = false)
        ∧ ¬(err.Category = ErrorCategoryConfiguration
              ∧ err.Severity = ErrorSeverityCritical) := by
  unfold ErrorRecoveryStrategy.ShouldRetry EcosystemError.IsRecoverable
  split_ifs with h1 h2 h3
  · simp only [Bool.false_eq_true, false_iff]
    intro h
    exact h.1 h1
  · simp only [Bool.false_eq_true, false_iff]
    intro h
    rcases Bool.and_eq_true _ _ |>.mp h2 with ⟨hro, hnr⟩
    exact h.2.1 ⟨hro, by simpa using hnr⟩
  · simp only [Bool.false_eq_true, false_iff]
    intro h
    rcases Bool.and_eq_true _ _ |>.mp h3 with ⟨hc, hs⟩
    exact h.2.2 ⟨by simpa using hc, by simpa using hs⟩
  · simp only [true_iff]
    refine ⟨h1, ?_, ?_⟩
    · rintro ⟨hro, hnr⟩
      exact h2 (by simp [hro, hnr])
    · rintro ⟨hc, hs⟩
      exact h3 (by simp [hc, hs])

/-- The multiplier loop computes the `attemptCount`-th power of the backoff
factor. -/
theorem backoffMultiplier_eq_pow (factor : ℚ) (n : Nat) :
    backoffMultiplier factor n = factor ^ n := by
  induction n with
  | zero => simp [backoffMultiplier]
  | succ n ih => simp [backoffMultiplier, ih, pow_succ]

/-- C5: `GetRetryDelay` returns the base delay for attempt counts at most 0,
and the base delay times the backoff factor to the attempt count for positive
counts — pure exponential backoff, no jitter. -/
theorem getRetryDelay_spec (strategy : ErrorRecoveryStrategy) (n : Int) :
    (n ≤ 0 → strategy.GetRetryDelay n = strategy.RetryDelay)
    ∧ (0 < n → strategy.GetRetryDelay n =
        strategy.RetryDelay * strategy.BackoffFactor ^ n.toNat) := by
  constructor
  · intro h
    simp [ErrorRecoveryStrategy.GetRetryDelay, h]
  · intro h
    have h2 : ¬ n ≤ 0 := by omega
    simp [ErrorRecoveryStrategy.GetRetryDelay, h2, backoffMultiplier_eq_pow]

/-- Witness for C5 at the default strategy: delay 0 is the base delay, delay 3
is base times factor cubed. -/
theorem getRetryDelay_spec_witness :
    DefaultRecoveryStrategy.GetRetryDelay 0 = DefaultRecoveryStrategy.RetryDelay
    ∧ DefaultRecoveryStrategy.GetRetryDelay 3 =
        DefaultRecoveryStrategy.RetryDelay
          * DefaultRecoveryStrategy.BackoffFactor ^ (3 : Int).toNat :=
  ⟨(getRetryDelay_spec DefaultRecoveryStrategy 0).1 (by decide),
   (getRetryDelay_spec DefaultRecoveryStrategy 3).2 (by decide)⟩

/-- C6: `HandleError` on an error that is already an `EcosystemError` fills
each of the ecosystem/plugin/stage context fields from the handler's context
exactly when that field is empty, leaving every other field (and every
already-set context field) unchanged; on any other error it wraps the fault
as a "processing"-category, "medium"-severity, recoverable error carrying the
handler's ecosystem/plugin and the given stage. -/
theorem handleError_spec (eh : ErrorHandler) (stage : String) (now : Nat)
    (e : EcosystemError) (m : String) :
    (∃ r, eh.HandleError (some (.eco e)) stage now = some r
      ∧ r.Ecosystem = (if e.Ecosystem = "" then eh.ecosystem else e.Ecosystem)
      ∧ r.Plugin = (if e.Plugin = "" then eh.pluginName else e.Plugin)
      ∧ r.Stage = (if e.Stage = "" then stage else e.Stage)
      ∧ r.Message = e.Message ∧ r.Cause = e.Cause ∧ r.Timestamp = e.Timestamp
      ∧ r.AnalysisID = e.AnalysisID ∧ r.Severity = e.Severity
      ∧ r.Category = e.Category ∧ r.Recoverable = e.Recoverable
      ∧ r.StackTrace = e.StackTrace ∧ r.Metadata = e.Metadata)
    ∧ (∃ w, eh.HandleError (some (.raw m)) stage now = some w
      ∧ w.Category = ErrorCategoryProcessing ∧ w.Severity = ErrorSeverityMedium
      ∧ w.Recoverable = true ∧ w.Ecosystem = eh.ecosystem
      ∧ w.Plugin = eh.pluginName ∧ w.Stage = stage
      ∧ w.Message = m ∧ w.Cause = some m ∧ w.Timestamp = now) := by
  constructor
  · exact ⟨_, rfl, rfl, rfl, rfl, rfl, rfl, rfl, rfl, rfl, rfl, rfl, rfl, rfl⟩
  · exact ⟨_, rfl, rfl, rfl, rfl, rfl, rfl, rfl, rfl, rfl, rfl⟩

/-- The scan of the step loop finds nothing when no step of the stage bears
the plugin's name. -/
theorem updateStepInStage_not_found (name : String) (result : Payload)
    (status : AnalysisStatus) (start end_ : String) (l : List Step)
    (h : ∀ step ∈ l, step.Name ≠ name) :
    updateStepInStage name result status start end_ l = none := by
  induction l with
  | nil => rfl
  | cons a l ih =>
      have ha : a.Name ≠ name := h a (List.mem_cons_self a l)
      have ih2 := ih (fun s hs => h s (List.mem_cons_of_mem a hs))
      simp [updateStepInStage, ha, ih2]

/-- The scan of the step loop updates exactly the first matching step. -/
theorem updateStepInStage_found (name : String) (result : Payload)
    (status : AnalysisStatus) (start end_ : String) (l : List Step) (i : Nat)
    (hi : i < l.length) (hmatch : (l.get ⟨i, hi⟩).Name = name)
    (hfirst : ∀ j (hj : j < i), (l.get ⟨j, Nat.lt_trans hj hi⟩).Name ≠ name) :
    updateStepInStage name result status start end_ l =
      some (l.set i (setStepFields (l.get ⟨i, hi⟩) result status start end_)) := by
  induction l generalizing i with
  | nil => exact absurd hi (Nat.not_lt_zero i)
  | cons a l ih =>
      cases i with
      | zero =>
          simp only [List.get] at hmatch
          simp [updateStepInStage, hmatch]
      | succ i =>
          have ha : a.Name ≠ name := hfirst 0 (Nat.succ_pos i)
          have ih2 := ih i (Nat.lt_of_succ_lt_succ hi) hmatch
            (fun j hj => hfirst (j + 1) (Nat.succ_lt_succ hj))
          simp [updateStepInStage, ha, ih2]

/-- C1: calling the step updater with a plugin name matching no step of the
record's current stage aborts the transaction with a "step not found in
stage" error and leaves the persisted record completely unmodified. -/
theorem updateTx_step_not_found (db : Analysis) (pluginName : String)
    (result : Payload) (status : AnalysisStatus) (start end_ : String)
    (hStage : 0 ≤ db.Stage ∧ db.Stage.toNat < db.Steps.length)
    (hAbsent : ∀ step ∈ db.Steps.getD db.Stage.toNat [], step.Name ≠ pluginName) :
    updateAnalysisInTransaction db pluginName result status start end_ =
      .error ("transaction failed: step " ++ pluginName ++ " not found in stage "
        ++ toString db.Stage)
    ∧ persistedAfterUpdate db pluginName result status start end_ = db := by
  have h := updateStepInStage_not_found pluginName result status start end_ _ hAbsent
  refine ⟨?_, ?_⟩
  · unfold updateAnalysisInTransaction
    rw [h]
  · unfold persistedAfterUpdate updateAnalysisInTransaction
    rw [h]

/-- A one-stage job-state record whose stage 0 holds a single ongoing
"js-sbom" step, used as concrete input by the witnesses. -/
def sampleStep : Step :=
  { Name := "js-sbom", Version := "1.0", Config := [], Status := .ongoing,
    Result := [], Started_on := "", Ended_on := "" }

/-- Concrete persisted record for the witnesses. -/
def sampleDb : Analysis :=
  { Id := 7, AnalyzerId := 1, OrganizationId := 2, ProjectId := none,
    Config := [], Stage := 0, Steps := [[sampleStep]], Status := .started,
    Commit := "abc", Branch := "main" }

/-- Witness for C1: updating `sampleDb` for the absent plugin
"license-finder" aborts with the step-not-found error and persists nothing. -/
theorem updateTx_step_not_found_witness :
    updateAnalysisInTransaction sampleDb "license-finder" [] .success "t0" "t1" =
      .error ("transaction failed: step " ++ "license-finder" ++ " not found in stage "
        ++ toString sampleDb.Stage)
    ∧ persistedAfterUpdate sampleDb "license-finder" [] .success "t0" "t1" = sampleDb :=
  updateTx_step_not_found sampleDb "license-finder" [] .success "t0" "t1"
    (by decide) (by decide)

/-- Auxiliary: `getD` after `set` at the written index returns the written
value when the index is in range. -/
theorem getD_set_self {α : Type} (l : List α) (n : Nat) (x d : α)
    (h : n < l.length) : (l.set n x).getD n d = x := by
  induction l generalizing n with
  | nil => exact absurd h (Nat.not_lt_zero n)
  | cons a l ih =>
      cases n with
      | zero => rfl
      | succ n => exact ih n (Nat.lt_of_succ_lt_succ h)

/-- Auxiliary: `getD` after `set` at any other index is unchanged. -/
theorem getD_set_ne {α : Type} (l : List α) (m n : Nat) (x d : α)
    (h : m ≠ n) : (l.set m x).getD n d = l.getD n d := by
  induction l generalizing m n with
  | nil => rfl
  | cons a l ih =>
      cases m with
      | zero =>
          cases n with
          | zero => exact absurd rfl h
          | succ n => rfl
      | succ m =>
          cases n with
          | zero => rfl
          | succ n => exact ih m n (fun hh => h (congrArg Nat.succ hh))

/-- C2: when the current stage's first step named `pluginName` sits at index
`i`, the transaction commits a record equal to the old one except that this
step's status, result and start/end timestamps carry the given values: every
other record field is untouched, every sibling step of the stage is
unchanged, and every other stage is unchanged; the committed record is what
is persisted. -/
theorem updateTx_frame (db : Analysis) (pluginName : String) (result : Payload)
    (status : AnalysisStatus) (start end_ : String)
    (hStage : 0 ≤ db.Stage ∧ db.Stage.toNat < db.Steps.length)
    (i : Nat) (hi : i < (db.Steps.getD db.Stage.toNat []).length)
    (hmatch : ((db.Steps.getD db.Stage.toNat []).get ⟨i, hi⟩).Name = pluginName)
    (hfirst : ∀ j (hj : j < i),
      ((db.Steps.getD db.Stage.toNat []).get ⟨j, Nat.lt_trans hj hi⟩).Name ≠ pluginName) :
    updateAnalysisInTransaction db pluginName result status start end_ =
      Except.ok { db with
        Steps := db.Steps.set db.Stage.toNat
            ((db.Steps.getD db.Stage.toNat []).set i
              (setStepFields ((db.Steps.getD db.Stage.toNat []).get ⟨i, hi⟩)
                result status start end_)) }
    ∧ persistedAfterUpdate db pluginName result status start end_ =
      { db with
        Steps := db.Steps.set db.Stage.toNat
            ((db.Steps.getD db.Stage.toNat []).set i
              (setStepFields ((db.Steps.getD db.Stage.toNat []).get ⟨i, hi⟩)
                result status start end_)) }
    ∧ (∀ (j : Nat) (d : Step), j ≠ i →
        ((db.Steps.getD db.Stage.toNat []).set i
              (setStepFields ((db.Steps.getD db.Stage.toNat []).get ⟨i, hi⟩)
                result status start end_)).getD j d
          = (db.Steps.getD db.Stage.toNat []).getD j d)
    ∧ (∀ (k : Nat) (ds : List Step), k ≠ db.Stage.toNat →
        (db.Steps.set db.Stage.toNat
            ((db.Steps.getD db.Stage.toNat []).set i
              (setStepFields ((db.Steps.getD db.Stage.toNat []).get ⟨i, hi⟩)
                result status start end_))).getD k ds
          = db.Steps.getD k ds) := by
  have h := updateStepInStage_found pluginName result status start end_
    (db.Steps.getD db.Stage.toNat []) i hi hmatch hfirst
  refine ⟨?_, ?_, ?_, ?_⟩
  · unfold updateAnalysisInTransaction
    rw [h]
  · unfold persistedAfterUpdate updateAnalysisInTransaction
    rw [h]
  · intro j d hj
    exact getD_set_ne _ i j _ d (fun hh => hj hh.symm)
  · intro k ds hk
    exact getD_set_ne _ db.Stage.toNat k _ ds (fun hh => hk hh.symm)

/-- Witness for C2, the scenario of §8: updating `sampleDb`'s "js-sbom" step
with result `packageCount = 42`, status success and timestamps t0/t1 yields
exactly that step with exactly those four fields set. -/
theorem updateTx_frame_witness :
    updateAnalysisInTransaction sampleDb "js-sbom" [("packageCount", 42)]
        .success "t0" "t1" =
      Except.ok { sampleDb with
        Steps := sampleDb.Steps.set sampleDb.Stage.toNat
            ((sampleDb.Steps.getD sampleDb.Stage.toNat []).set 0
              (setStepFields
                ((sampleDb.Steps.getD sampleDb.Stage.toNat []).get ⟨0, by decide⟩)
                [("packageCount", 42)] .success "t0" "t1")) }
    ∧ persistedAfterUpdate sampleDb "js-sbom" [("packageCount", 42)]
        .success "t0" "t1" =
      { sampleDb with
        Steps := sampleDb.Steps.set sampleDb.Stage.toNat
            ((sampleDb.Steps.getD sampleDb.Stage.toNat []).set 0
              (setStepFields
                ((sampleDb.Steps.getD sampleDb.Stage.toNat []).get ⟨0, by decide⟩)
                [("packageCount", 42)] .success "t0" "t1")) } := by
  have h := updateTx_frame sampleDb "js-sbom" [("packageCount", 42)]
    .success "t0" "t1" (by decide) 0 (by decide) (by decide)
    (fun j hj => absurd hj (Nat.not_lt_zero j))
  exact ⟨h.1, h.2.1⟩

/-- The consumption loop is the pointwise image of the per-delivery
boundary. -/
theorem consumeLoop_map (ds : List HandlerOutcome) :
    consumeLoop ds = ds.map processDelivery := by
  induction ds with
  | nil => rfl
  | cons d rest ih => simp [consumeLoop, ih]

/-- Auxiliary: `getD` through `map` at an in-range index, for any defaults. -/
theorem getD_map_lt {α β : Type} (f : α → β) (l : List α) (i : Nat)
    (h : i < l.length) (db : β) (da : α) :
    (l.map f).getD i db = f (l.getD i da) := by
  induction l generalizing i with
  | nil => exact absurd h (Nat.not_lt_zero i)
  | cons a l ih =>
      cases i with
      | zero => rfl
      | succ i => exact ih i (Nat.lt_of_succ_lt_succ h)

/-- C3: over any finite burst of deliveries the consumption loop issues
exactly one acknowledgment per delivery (the lists have equal length and the
i-th acknowledgment is the per-delivery outcome of the i-th delivery: ack on
normal return, nack-with-requeue on panic), and a panicking delivery does not
stop the loop: the deliveries after it are processed exactly as before. -/
theorem consumeLoop_ack_discipline (ds : List HandlerOutcome) :
    (consumeLoop ds).length = ds.length
    ∧ (∀ (i : Nat), i < ds.length → ∀ (da : AckOutcome) (dh : HandlerOutcome),
        (consumeLoop ds).getD i da = processDelivery (ds.getD i dh))
    ∧ (∀ front back, consumeLoop (front ++ HandlerOutcome.panics :: back)
        = consumeLoop front ++ AckOutcome.nackRequeue :: consumeLoop back) := by
  refine ⟨?_, ?_, ?_⟩
  · simp [consumeLoop_map]
  · intro i hi da dh
    rw [consumeLoop_map]
    exact getD_map_lt processDelivery ds i hi da dh
  · intro front back
    simp [consumeLoop_map, processDelivery]

/-- Witness for C3 on the burst normal-panic-normal: the nack of the panic
sits between the two acks and processing continues after the panic. -/
theorem consumeLoop_ack_discipline_witness :
    (consumeLoop [HandlerOutcome.normal, HandlerOutcome.panics]).getD 1 AckOutcome.ack
      = processDelivery
          ([HandlerOutcome.normal, HandlerOutcome.panics].getD 1 HandlerOutcome.normal)
    ∧ consumeLoop ([HandlerOutcome.normal] ++ HandlerOutcome.panics :: [HandlerOutcome.normal])
      = consumeLoop [HandlerOutcome.normal]
          ++ AckOutcome.nackRequeue :: consumeLoop [HandlerOutcome.normal] :=
  ⟨(consumeLoop_ack_discipline [HandlerOutcome.normal, HandlerOutcome.panics]).2.1
      1 (by decide) AckOutcome.ack HandlerOutcome.normal,
   (consumeLoop_ack_discipline [HandlerOutcome.normal, HandlerOutcome.panics]).2.2
      [HandlerOutcome.normal] [HandlerOutcome.normal]⟩

/-- C10: when the plugin handler returns an error the wrapper issues exactly
one step update, with an empty result payload and FAILURE status, and
publishes nothing to `plugins_dispatcher`; when the handler succeeds the
completion message is published exactly when the step update committed, and
never when it failed. -/
theorem callback_failure_no_completion (config : PluginConfig) (db : Analysis)
    (env : CallbackEnv) (start end_ : String) (msg : DispatcherPluginMessage)
    (hmsg : env.unmarshal = some msg) (hfetch : env.fetchOk = true) :
    (∀ e, env.handlerResult = .error e →
      (runCallbackWrapper config db env start end_).1.updates
          = [([], AnalysisStatus.failure, start, end_)]
        ∧ (runCallbackWrapper config db env start end_).1.published = none)
    ∧ (∀ result status, env.handlerResult = .ok (result, status) →
        ((∃ doc, updateAnalysisInTransaction db config.Name result status start end_
              = .ok doc) →
          (runCallbackWrapper config db env start end_).1.published
            = some ("plugins_dispatcher",
                { AnalysisId := msg.AnalysisId, Plugin := config.Name }))
        ∧ (∀ e2, updateAnalysisInTransaction db config.Name result status start end_
              = .error e2 →
          (runCallbackWrapper config db env start end_).1.published = none)) := by
  constructor
  · intro e he
    constructor
    · simp [runCallbackWrapper, hmsg, hfetch, he]
    · simp [runCallbackWrapper, hmsg, hfetch, he]
  · intro result status hok
    constructor
    · rintro ⟨doc, hdoc⟩
      simp [runCallbackWrapper, hmsg, hfetch, hok, hdoc]
    · intro e2 he2
      simp [runCallbackWrapper, hmsg, hfetch, hok, he2]

/-- Concrete callback inputs whose handler fails. -/
def envErr : CallbackEnv :=
  { unmarshal := some { Data := [], AnalysisId := 9, OrganizationId := 4 }
    fetchOk := true
    handlerResult := .error "analysis failed" }

/-- Concrete callback inputs whose handler succeeds. -/
def envOk : CallbackEnv :=
  { unmarshal := some { Data := [], AnalysisId := 9, OrganizationId := 4 }
    fetchOk := true
    handlerResult := .ok ([("packageCount", 42)], .success) }

/-- Witness for C10 on `sampleDb`: the failing handler updates with FAILURE
and `{}` and publishes nothing; the succeeding handler's committed update is
followed by the completion message. -/
theorem callback_failure_no_completion_witness :
    ((runCallbackWrapper { Name := "js-sbom", Version := "1.0" } sampleDb envErr
        "t0" "t1").1.updates = [([], AnalysisStatus.failure, "t0", "t1")]
      ∧ (runCallbackWrapper { Name := "js-sbom", Version := "1.0" } sampleDb envErr
          "t0" "t1").1.published = none)
    ∧ (runCallbackWrapper { Name := "js-sbom", Version := "1.0" } sampleDb envOk
        "t0" "t1").1.published
        = some ("plugins_dispatcher", { AnalysisId := 9, Plugin := "js-sbom" }) :=
  ⟨(callback_failure_no_completion { Name := "js-sbom", Version := "1.0" } sampleDb
      envErr "t0" "t1" { Data := [], AnalysisId := 9, OrganizationId := 4 } rfl rfl).1
      "analysis failed" rfl,
   ((callback_failure_no_completion { Name := "js-sbom", Version := "1.0" } sampleDb
      envOk "t0" "t1" { Data := [], AnalysisId := 9, OrganizationId := 4 } rfl rfl).2
      [("packageCount", 42)] .success rfl).1
      ⟨{ sampleDb with
          Steps := sampleDb.Steps.set sampleDb.Stage.toNat
              ((sampleDb.Steps.getD sampleDb.Stage.toNat []).set 0
                (setStepFields
                  ((sampleDb.Steps.getD sampleDb.Stage.toNat []).get ⟨0, by decide⟩)
                  [("packageCount", 42)] .success "t0" "t1")) }, by rfl⟩⟩

/-- A startup environment in which the knowledge store would fail its
liveness probe while everything the service actually probes is healthy. -/
def deadKnowledgeEnv : StoreEnv :=
  { configOk := true, resultsPingOk := true, knowledgePingOk := false,
    pluginsPingOk := true, configStorePingOk := true, amqpDialOk := true }

/-- C7 counterexample: service startup succeeds in `deadKnowledgeEnv`
although the knowledge store does not respond to a liveness probe —
`connectServiceDatabases` pings only the CodeClarity (results) store, so the
claim that every required store is probed before startup succeeds is false. -/
theorem startup_probe_counterexample : ¬ startupProbesEveryStore := by
  intro h
  have h2 := h deadKnowledgeEnv (by decide)
  exact absurd h2.1 (by decide)

/-- C7 amended: connection establishment is sequential and fail-fast, but
only on what is actually probed — the service path succeeds exactly when
config validation, the CodeClarity (results) store's initial ping and the
single broker dial succeed (the knowledge/plugins/config stores are opened
lazily, without a probe), while the plugin path's `initializeDatabases`
succeeds exactly when each of its three stores answers its 5-second-timeout
ping. -/
theorem createServiceBase_failfast (env : StoreEnv) :
    (startupSucceeds env = true ↔
      env.configOk = true ∧ env.resultsPingOk = true ∧ env.amqpDialOk = true)
    ∧ (pluginInitSucceeds env = true ↔
      env.resultsPingOk = true ∧ env.knowledgePingOk = true
        ∧ env.pluginsPingOk = true) := by
  obtain ⟨c, r, k, p, cs, a⟩ := env
  cases c <;> cases r <;> cases k <;> cases p <;> cases cs <;> cases a <;> decide

/-- One store passes its check exactly when it is absent or pings back in
time without error. -/
theorem checkStore_none_iff (name : String) (o : Option StorePing) :
    checkStore name o = none ↔ storeHealthy o = true := by
  cases o with
  | none => simp [checkStore, storeHealthy]
  | some p =>
      simp only [checkStore, storeHealthy, pingFailure]
      split_ifs with h1 h2
      · simp only [reduceCtorEq, false_iff, Bool.and_eq_true]
        rintro ⟨hd, _⟩
        have := of_decide_eq_true hd
        omega
      · simp only [reduceCtorEq, false_iff, Bool.and_eq_true]
        rintro ⟨_, hf⟩
        simp [h2] at hf
      · simp only [true_iff, Bool.and_eq_true]
        refine ⟨decide_eq_true (by omega), by simp [h2]⟩

/-- C8: on each tick the monitor health-checks every configured store with
the individual 5-time-unit ping timeout, treating a ping error or timeout as
a failure (the check passes exactly when every configured store is healthy);
an abnormal broker-close notification is also a failure; and on the first
failing event the monitor sends `true` exactly once on its single-delivery
channel and returns, observing none of the later events (it never restarts
itself) — on any event trace at most one signal is ever sent. -/
theorem monitor_signals_exactly_once (pre post : List MonitorEvent)
    (ev : MonitorEvent)
    (hpre : ∀ e ∈ pre, passingTick e = true)
    (hfail : eventSignalsFailure ev = true) :
    monitorRun (pre ++ ev :: post) = ([true], post)
    ∧ (∀ evs : List MonitorEvent, (monitorRun evs).1.length ≤ 1)
    ∧ (∀ env : HealthEnv, checkDatabaseHealth env = none ↔
        (storeHealthy env.codeclarity = true ∧ storeHealthy env.knowledge = true
          ∧ storeHealthy env.plugins = true ∧ storeHealthy env.config = true)) := by
  refine ⟨?_, ?_, ?_⟩
  · induction pre with
    | nil =>
        cases ev with
        | tick env =>
            simp only [eventSignalsFailure] at hfail
            cases h : checkDatabaseHealth env with
            | none => simp [h] at hfail
            | some e => simp [monitorRun, h]
        | brokerClosed abnormal =>
            simp only [eventSignalsFailure] at hfail
            simp [monitorRun, hfail]
    | cons e rest ih =>
        have he : passingTick e = true := hpre e (List.mem_cons_self e rest)
        cases e with
        | tick env =>
            simp only [passingTick, Option.isNone_iff_eq_none] at he
            have ih2 := ih (fun x hx => hpre x (List.mem_cons_of_mem _ hx))
            simpa [monitorRun, he] using ih2
        | brokerClosed abnormal => simp [passingTick] at he
  · intro evs
    induction evs with
    | nil => simp [monitorRun]
    | cons e rest ih =>
        cases e with
        | tick env =>
            cases h : checkDatabaseHealth env with
            | none => simpa [monitorRun, h] using ih
            | some msg => simp [monitorRun, h]
        | brokerClosed abnormal =>
            cases abnormal <;> simp [monitorRun]
  · intro env
    rw [← checkStore_none_iff "CodeClarity" env.codeclarity,
      ← checkStore_none_iff "Knowledge" env.knowledge,
      ← checkStore_none_iff "Plugins" env.plugins,
      ← checkStore_none_iff "Config" env.config]
    unfold checkDatabaseHealth
    cases checkStore "CodeClarity" env.codeclarity
      <;> cases checkStore "Knowledge" env.knowledge
      <;> cases checkStore "Plugins" env.plugins
      <;> cases checkStore "Config" env.config <;> simp

/-- A tick environment on which every configured store is healthy. -/
def healthyEnv : HealthEnv :=
  { codeclarity := some { duration := 1, fails := false }
    knowledge := some { duration := 2, fails := false }
    plugins := none
    config := some { duration := 0, fails := false } }

/-- Witness for C8: after one healthy tick, an abnormal broker close makes
the monitor send exactly one `true` and return, leaving the following tick
unobserved. -/
theorem monitor_signals_exactly_once_witness :
    monitorRun ([MonitorEvent.tick healthyEnv]
        ++ MonitorEvent.brokerClosed true :: [MonitorEvent.tick healthyEnv])
      = ([true], [MonitorEvent.tick healthyEnv]) :=
  (monitor_signals_exactly_once [MonitorEvent.tick healthyEnv]
    [MonitorEvent.tick healthyEnv] (MonitorEvent.brokerClosed true)
    (by decide) (by decide)).1

/-- A successful restart attempt starts a listener for every registered
queue, in registration order. -/
theorem restart_ok (env : RestartEnv) (queues : List ServiceQueueConfig)
    (h : (env.configOk && env.dbOk && env.amqpOk && env.listenersOk) = true) :
    restart env queues = .ok (queues.map ServiceQueueConfig.Name) := by
  obtain ⟨c, d, a, l⟩ := env
  simp only [Bool.and_eq_true] at h
  obtain ⟨⟨⟨hc, hd⟩, ha⟩, hl⟩ := h
  simp [restart, hc, hd, ha, hl]

/-- A failed restart attempt returns an error (and thus no listener set). -/
theorem restart_fails (env : RestartEnv) (queues : List ServiceQueueConfig)
    (h : (env.configOk && env.dbOk && env.amqpOk && env.listenersOk) = false) :
    ∃ msg, restart env queues = .error msg := by
  obtain ⟨c, d, a, l⟩ := env
  cases c <;> cases d <;> cases a <;> cases l <;> simp_all [restart]

/-- C9: after a connection loss the lifecycle closes everything, sleeps the
fixed 10-second cool-down, and attempts a full restart; each failed attempt
adds a 30-second sleep and another full pass, indefinitely (a script of only
failures never produces a terminal outcome); and the first successful attempt
resumes listeners for exactly the registered queues — none dropped. -/
theorem reconnect_retries_until_success (failEnvs : List RestartEnv)
    (okEnv : RestartEnv) (queues : List ServiceQueueConfig)
    (hfail : ∀ e ∈ failEnvs,
      (e.configOk && e.dbOk && e.amqpOk && e.listenersOk) = false)
    (hok : (okEnv.configOk && okEnv.dbOk && okEnv.amqpOk && okEnv.listenersOk) = true) :
    reconnectLoop queues (failEnvs ++ [okEnv]) =
      ((failEnvs.map fun _ => [LAction.closeAll, LAction.sleep 10,
          LAction.attemptRestart, LAction.sleep 30]).flatten
        ++ [LAction.closeAll, LAction.sleep 10, LAction.attemptRestart],
       some (queues.map ServiceQueueConfig.Name))
    ∧ (∀ q ∈ queues, q.Name ∈ queues.map ServiceQueueConfig.Name)
    ∧ (∀ envs : List RestartEnv, (∀ e ∈ envs,
        (e.configOk && e.dbOk && e.amqpOk && e.listenersOk) = false) →
        (reconnectLoop queues envs).2 = none) := by
  refine ⟨?_, ?_, ?_⟩
  · induction failEnvs with
    | nil => simp [reconnectLoop, restart_ok okEnv queues hok]
    | cons e rest ih =>
        obtain ⟨msg, hmsg⟩ := restart_fails e queues
          (hfail e (List.mem_cons_self e rest))
        have ih2 := ih (fun x hx => hfail x (List.mem_cons_of_mem _ hx))
        simp [reconnectLoop, hmsg, ih2]
  · intro q hq
    exact List.mem_map_of_mem ServiceQueueConfig.Name hq
  · intro envs hall
    induction envs with
    | nil => rfl
    | cons e rest ih =>
        obtain ⟨msg, hmsg⟩ := restart_fails e queues
          (hall e (List.mem_cons_self e rest))
        have ih2 := ih (fun x hx => hall x (List.mem_cons_of_mem _ hx))
        simp [reconnectLoop, hmsg, ih2]

/-- A restart attempt that fails at the broker phase. -/
def badAttempt : RestartEnv :=
  { configOk := true, dbOk := true, amqpOk := false, listenersOk := true }

/-- A restart attempt in which all four phases succeed. -/
def goodAttempt : RestartEnv :=
  { configOk := true, dbOk := true, amqpOk := true, listenersOk := true }

/-- The two queues registered before the simulated connection loss. -/
def sampleQueues : List ServiceQueueConfig :=
  [{ Name := "dispatcher_js-sbom", Durable := true },
   { Name := "plugins_dispatcher", Durable := true }]

/-- Witness for C9, the scenario of §8: two failed reconnect attempts then a
successful third resume consumption of both previously registered queues,
with the 10-second cool-down before every attempt and a 30-second sleep after
each failure. -/
theorem reconnect_retries_until_success_witness :
    reconnectLoop sampleQueues ([badAttempt, badAttempt] ++ [goodAttempt]) =
      (([badAttempt, badAttempt].map fun _ => [LAction.closeAll, LAction.sleep 10,
          LAction.attemptRestart, LAction.sleep 30]).flatten
        ++ [LAction.closeAll, LAction.sleep 10, LAction.attemptRestart],
       some (sampleQueues.map ServiceQueueConfig.Name)) :=
  (reconnect_retries_until_success [badAttempt, badAttempt] goodAttempt
    sampleQueues (by decide) (by decide)).1

end UtilityTypes
